import Mathlib

/-!
Verification of the catch-mon market monitor (`mon_monitor` package).

Shallow embedding conventions:
- Python floats are modelled as exact rationals (`ℚ`); the source's arithmetic
  (`+`, `-`, `*`, `/`, comparisons) maps to the corresponding `ℚ` operations.
- `Optional[T]` maps to `Option`; Python `None` checks map to `Option` matches.
- Python truthiness on numbers (`if x:` for a float) is `x ≠ 0`; on lists it is
  non-emptiness; dataclass instances are always truthy.
- `math.log` and `math.sqrt` are transcendental; they are carried as explicit
  function parameters `lg`/`sq : ℚ → ℚ`, with their characteristic algebraic
  facts (`lg 1 = 0`, `sq 0 = 0`) taken as hypotheses where a claim needs them.
- The SQLite-backed stores are modelled by explicit state: the
  `alert_counters` table by a total map `String → ℕ` (absent row reads as 0,
  exactly as `get_consecutive_count` returns 0 when no row exists), and the
  `alerts` table by a list of rows carrying `dedupe_key`, `ts_utc` and the
  insertion time `created_at`.
- Code that can raise (attribute access on a missing dataclass field) returns
  `Except PyErr`.
-/

namespace MonMonitor

/-- Python runtime errors that the embedded code can raise. -/
inductive PyErr where
  | attributeError
deriving DecidableEq

/-! ## Data model (`mon_monitor/models.py`) -/

/-- `TickerData` (models.py). -/
structure TickerData where
  last_price : Option ℚ := none
  quote_volume_24h : Option ℚ := none
  pct_change_1h : Option ℚ := none
  pct_change_24h : Option ℚ := none
deriving DecidableEq

/-- `ImpactCostResult` (models.py). -/
structure ImpactCostResult where
  avg_fill_price : Option ℚ := none
  slip_bps : Option ℚ := none
  filled_notional : ℚ := 0
  target_notional : ℚ := 0
  insufficient_liquidity : Bool := false
  shortfall : ℚ := 0
deriving DecidableEq

/-- `OrderBookData` (models.py). An order-book level `[price, amount]` is a
pair `(price, amount) : ℚ × ℚ`; `orderbook_levels_raw` keeps the truncated
`(bids, asks)` pair kept by `process_orderbook`. -/
structure OrderBookData where
  best_bid : Option ℚ := none
  best_ask : Option ℚ := none
  mid : Option ℚ := none
  spread_bps : Option ℚ := none
  depth_1pct_usdt_bid : Option ℚ := none
  depth_1pct_usdt_ask : Option ℚ := none
  depth_2pct_usdt_bid : Option ℚ := none
  depth_2pct_usdt_ask : Option ℚ := none
  impact_buy_n1 : Option ImpactCostResult := none
  impact_sell_n1 : Option ImpactCostResult := none
  impact_buy_n2 : Option ImpactCostResult := none
  impact_sell_n2 : Option ImpactCostResult := none
  orderbook_levels_raw : Option (List (ℚ × ℚ) × List (ℚ × ℚ)) := none
deriving DecidableEq

/-- `FundingData` (models.py). -/
structure FundingData where
  funding_rate : Option ℚ := none
  funding_time : Option String := none
deriving DecidableEq

/-- `OpenInterestData` (models.py); the `raw_json` diagnostic payload is not
modelled. -/
structure OpenInterestData where
  open_interest_value_usdt : Option ℚ := none
  open_interest_amount_contracts : Option ℚ := none
deriving DecidableEq

/-- `OhlcvData` (models.py). -/
structure OhlcvData where
  realized_vol_24h : Option ℚ := none
  atr_like_24h : Option ℚ := none
  candle_count : ℕ := 0
deriving DecidableEq

/-- One OHLCV candle `[ts, open, high, low, close, volume]`. Only indices
2 (high), 3 (low) and 4 (close) are ever read by the calculator; each may be
`null` in the venue payload, hence `Option`. -/
structure Candle where
  high : Option ℚ := none
  low : Option ℚ := none
  close : Option ℚ := none
deriving DecidableEq

/-- The raw order book dict `{"bids": [...], "asks": [...]}` stored under
`raw_json["orderbook_raw"]`. -/
structure ObRaw where
  bids : List (ℚ × ℚ) := []
  asks : List (ℚ × ℚ) := []
deriving DecidableEq

/-- The keys of `snapshot.raw_json` that the enrichment pipeline reads back
(`orderbook_raw`, `ohlcv_candles`). The remaining keys are diagnostic-only. -/
structure RawJson where
  orderbook_raw : Option ObRaw := none
  ohlcv_candles : Option (List Candle) := none
deriving DecidableEq

/-- `VenueSnapshot` (models.py). `errors` keeps the structured error kinds. -/
structure VenueSnapshot where
  venue : String := ""
  symbol : String := ""
  ts_utc : String := ""
  missing_market : Bool := false
  ticker : Option TickerData := none
  orderbook : Option OrderBookData := none
  funding : Option FundingData := none
  open_interest : Option OpenInterestData := none
  ohlcv : Option OhlcvData := none
  raw_json : RawJson := {}
  errors : List String := []
deriving DecidableEq

/-- `BaselineValues` (models.py). -/
structure BaselineValues where
  venue : String := ""
  symbol : String := ""
  ts_utc : String := ""
  depth_1pct_total_median : Option ℚ := none
  spread_bps_median : Option ℚ := none
  slip_bps_n2_median : Option ℚ := none
  volume_24h_mean_7d : Option ℚ := none
  sample_count : ℕ := 0
  warming_up : Bool := true
deriving DecidableEq

/-- `Alert` (models.py). The human-readable `message` f-string is kept as a
field but its formatted text is not modelled (no claim reads it). -/
structure Alert where
  alert_type : String := ""
  venue : String := ""
  symbol : String := ""
  severity : String := "info"
  message : String := ""
  threshold_value : Option ℚ := none
  current_value : Option ℚ := none
  baseline_value : Option ℚ := none
  ts_utc : String := ""
  dedupe_key : String := ""
deriving DecidableEq

/-! ## Configuration (`mon_monitor/config.py`) -/

/-- `ThresholdsConfig` (config.py lines 21-25). These four fields are the
complete field list of the dataclass. -/
structure ThresholdsConfig where
  depth_drop_mult : ℚ := 7/10
  spread_mult : ℚ := 2
  slip_mult : ℚ := 2
  volume_spike_mult : ℚ := 2
deriving DecidableEq

/-- The attribute access `thresholds.insufficient_liq_gap_pct` performed by
`detector.check_insufficient_liquidity` (detector.py lines 326 and 339).
`ThresholdsConfig` declares no field of this name and no `__getattr__`, and
`load_config` never injects one, so Python attribute lookup on any
`ThresholdsConfig` instance raises `AttributeError`. -/
def ThresholdsConfig.insufficient_liq_gap_pct (_ : ThresholdsConfig) : Except PyErr ℚ :=
  .error .attributeError

/-- `MonitorConfig` (config.py); the fields the detection/enrichment pipeline
reads. `venues`/`timezone` feed the out-of-scope collaborators only. -/
structure MonitorConfig where
  token_symbol : String := "MON"
  schedule_seconds : ℤ := 300
  baseline_days : ℤ := 14
  orderbook_levels : ℕ := 100
  notional_1 : ℚ := 10000
  notional_2 : ℚ := 100000
  thresholds : ThresholdsConfig := {}
  dedupe_window_seconds : ℤ := 3600
deriving DecidableEq

/-! ## Metrics calculator (`mon_monitor/calculator.py`) -/

/-- The accumulation loop of `calc_depth_within_pct`: sum `price * amount`
over the levels whose price passes the side's bound test. -/
def sumWithin (keep : ℚ → Bool) : List (ℚ × ℚ) → ℚ
  | [] => 0
  | l :: rest => (if keep l.1 then l.1 * l.2 else 0) + sumWithin keep rest

/-- `calc_depth_within_pct(levels, mid, pct, side)` (calculator.py 28-59).
`side` other than `"bid"`/`"ask"` falls through and returns the initial 0. -/
def calc_depth_within_pct (levels : List (ℚ × ℚ)) (mid pct : ℚ) (side : String) : ℚ :=
  if side = "bid" then
    sumWithin (fun price => decide (mid * (1 - pct / 100) ≤ price)) levels
  else if side = "ask" then
    sumWithin (fun price => decide (price ≤ mid * (1 + pct / 100))) levels
  else 0

/-- The level-walking loop of `calc_impact_cost` (calculator.py 86-100).
State `(remaining, total_cost, total_base)`; a level is consumed fully when
its notional fits in `remaining`, otherwise partially at that level's price,
and the loop breaks once `remaining ≤ 0`. -/
def impactWalk : List (ℚ × ℚ) → ℚ → ℚ → ℚ → ℚ × ℚ × ℚ
  | [], remaining, total_cost, total_base => (remaining, total_cost, total_base)
  | (price, amount) :: rest, remaining, total_cost, total_base =>
    if remaining ≤ 0 then (remaining, total_cost, total_base)
    else
      let level_notional := price * amount
      if level_notional ≤ remaining then
        impactWalk rest (remaining - level_notional) (total_cost + level_notional)
          (total_base + amount)
      else
        (0, total_cost + remaining, total_base + remaining / price)

/-- `calc_impact_cost(levels, mid, notional, side)` (calculator.py 62-119). -/
def calc_impact_cost (levels : List (ℚ × ℚ)) (mid notional : ℚ) (side : String) :
    ImpactCostResult :=
  let w := impactWalk levels notional 0 0
  let remaining := w.1
  let total_cost := w.2.1
  let total_base := w.2.2
  let avg : Option ℚ := if 0 < total_base then some (total_cost / total_base) else none
  { target_notional := notional
    filled_notional := notional - remaining
    avg_fill_price := avg
    insufficient_liquidity := decide (0 < remaining)
    shortfall := if 0 < remaining then remaining else 0
    slip_bps :=
      match avg with
      | some av =>
        if 0 < mid then
          some (if side = "buy" then (av - mid) / mid * 10000 else (mid - av) / mid * 10000)
        else none
      | none => none }

/-- The log-return extraction of `calc_realized_vol` (calculator.py 134-137):
for consecutive closes `(prev, cur)` with both positive, take `lg (cur/prev)`
(`lg` stands for `math.log`). -/
def logReturns (lg : ℚ → ℚ) (recent : List ℚ) : List ℚ :=
  (recent.zip recent.tail).filterMap fun pr =>
    if 0 < pr.1 ∧ 0 < pr.2 then some (lg (pr.2 / pr.1)) else none

/-- The Bessel-corrected sample variance used by `calc_realized_vol`
(calculator.py 142-143): divisor `n - 1`. -/
def sampleVarianceBessel (returns : List ℚ) : ℚ :=
  let mean_r := returns.sum / (returns.length : ℚ)
  (returns.map fun r => (r - mean_r) ^ 2).sum / ((returns.length : ℚ) - 1)

/-- `calc_realized_vol(closes)` (calculator.py 122-144); `lg` stands for
`math.log` and `sq` for `math.sqrt`. -/
def calc_realized_vol (lg sq : ℚ → ℚ) (closes : List ℚ) : Option ℚ :=
  if closes.length < 2 then none
  else
    let recent := if 25 ≤ closes.length then closes.drop (closes.length - 25) else closes
    let returns := logReturns lg recent
    if returns.length < 2 then none
    else some (sq (sampleVarianceBessel returns))

/-- `calc_atr_like(candles)` (calculator.py 147-168). -/
def calc_atr_like (candles : List Candle) : Option ℚ :=
  let recent := if 24 ≤ candles.length then candles.drop (candles.length - 24) else candles
  if recent.isEmpty then none
  else
    let ranges := recent.filterMap fun c =>
      match c.high, c.low with
      | some high, some low => some |high - low|
      | _, _ => none
    if ranges.isEmpty then none else some (ranges.sum / (ranges.length : ℚ))

/-- `calc_pct_change_from_ohlcv(candles, hours)` (calculator.py 171-186).
Python truthiness: `past_close` must be non-null and nonzero (then `> 0`),
`current_close` non-null and nonzero. -/
def calc_pct_change_from_ohlcv (candles : List Candle) (hours : ℕ) : Option ℚ :=
  if candles.isEmpty ∨ candles.length < hours + 1 then none
  else
    let current_close := candles.getLast?.bind (·.close)
    let past_close := (candles.get? (candles.length - (hours + 1))).bind (·.close)
    match past_close, current_close with
    | some pc, some cc => if 0 < pc ∧ cc ≠ 0 then some ((cc - pc) / pc * 100) else none
    | _, _ => none

/-! ## Orderbook / OHLCV processing (`mon_monitor/calculator.py` 189-326) -/

/-- `process_orderbook(ob_raw, mid, notional_1, notional_2, orderbook_levels)`
(calculator.py 189-255). `data.mid or 0` coincides with `getD 0` because a
zero mid is falsy and the fallback is 0 itself. -/
def process_orderbook (ob_raw : ObRaw) (mid notional_1 notional_2 : ℚ)
    (orderbook_levels : ℕ) : OrderBookData :=
  let bids := ob_raw.bids
  let asks := ob_raw.asks
  let best_bid := bids.head?.map (·.1)
  let best_ask := asks.head?.map (·.1)
  let mid_spread : Option ℚ × Option ℚ :=
    match best_bid, best_ask with
    | some b, some a =>
      let m := (b + a) / 2
      (some m, if 0 < m then some ((a - b) / m * 10000) else none)
    | _, _ => (none, none)
  let effective_mid := if 0 < mid then mid else mid_spread.1.getD 0
  let levels_raw := some (bids.take orderbook_levels, asks.take orderbook_levels)
  if 0 < effective_mid then
    { best_bid := best_bid
      best_ask := best_ask
      mid := mid_spread.1
      spread_bps := mid_spread.2
      depth_1pct_usdt_bid := some (calc_depth_within_pct bids effective_mid 1 "bid")
      depth_1pct_usdt_ask := some (calc_depth_within_pct asks effective_mid 1 "ask")
      depth_2pct_usdt_bid := some (calc_depth_within_pct bids effective_mid 2 "bid")
      depth_2pct_usdt_ask := some (calc_depth_within_pct asks effective_mid 2 "ask")
      impact_buy_n1 := some (calc_impact_cost asks effective_mid notional_1 "buy")
      impact_sell_n1 := some (calc_impact_cost bids effective_mid notional_1 "sell")
      impact_buy_n2 := some (calc_impact_cost asks effective_mid notional_2 "buy")
      impact_sell_n2 := some (calc_impact_cost bids effective_mid notional_2 "sell")
      orderbook_levels_raw := levels_raw }
  else
    { best_bid := best_bid
      best_ask := best_ask
      mid := mid_spread.1
      spread_bps := mid_spread.2
      orderbook_levels_raw := levels_raw }

/-- `process_ohlcv(candles)` (calculator.py 258-272). -/
def process_ohlcv (lg sq : ℚ → ℚ) (candles : List Candle) : OhlcvData :=
  if candles.isEmpty then { candle_count := 0 }
  else
    { realized_vol_24h := calc_realized_vol lg sq (candles.filterMap (·.close))
      atr_like_24h := calc_atr_like candles
      candle_count := candles.length }

/-- `enrich_snapshot(snapshot, config)` (calculator.py 275-326).
`ticker_mid` is 0 unless the ticker carries a truthy (nonzero) `last_price`;
a zero `last_price` also yields 0, so `getD 0` is exact. The open-interest
branch reads the orderbook field just assigned, hence the sequencing through
`s1`/`s2`. -/
def enrich_snapshot (lg sq : ℚ → ℚ) (snapshot : VenueSnapshot) (config : MonitorConfig) :
    VenueSnapshot :=
  if snapshot.missing_market then snapshot
  else
    let s1 :=
      match snapshot.raw_json.orderbook_raw with
      | none => snapshot
      | some ob_raw =>
        let ticker_mid : ℚ := (snapshot.ticker.bind (·.last_price)).getD 0
        { snapshot with
            orderbook := some (process_orderbook ob_raw ticker_mid
              config.notional_1 config.notional_2 config.orderbook_levels) }
    let s2 :=
      match s1.raw_json.ohlcv_candles with
      | none => s1
      | some candles =>
        if candles.isEmpty then s1
        else
          let s := { s1 with ohlcv := some (process_ohlcv lg sq candles) }
          match s.ticker with
          | none => s
          | some t =>
            let t1 :=
              if t.pct_change_1h = none then
                { t with pct_change_1h := calc_pct_change_from_ohlcv candles 1 }
              else t
            let t2 :=
              if t1.pct_change_24h = none then
                { t1 with pct_change_24h := calc_pct_change_from_ohlcv candles 24 }
              else t1
            { s with ticker := some t2 }
    match s2.open_interest with
    | none => s2
    | some oi =>
      match oi.open_interest_value_usdt with
      | some _ => s2
      | none =>
        match oi.open_interest_amount_contracts with
        | none => s2
        | some contracts =>
          let mid_fallback : Option ℚ :=
            match s2.orderbook.bind (·.mid) with
            | some m => if m ≠ 0 then some m else none
            | none => none
          let price : Option ℚ :=
            match s2.ticker.bind (·.last_price) with
            | some p => if p ≠ 0 then some p else mid_fallback
            | none => mid_fallback
          match price with
          | some p =>
            if 0 < p then
              let oi2 := { oi with open_interest_value_usdt := some (contracts * p) }
              { s2 with open_interest := some oi2 }
            else s2
          | none => s2

/-! ## Collector assembly (`mon_monitor/collector.py` 530-672)

The HTTP transport is external; what the collector does with each sub-fetch
outcome is modelled by `collect_venue` over a record of outcomes. A handler
returns `none` on failure. For candles, `if ohlcv_candles:` also treats an
empty list as absent. -/

/-- Per-venue sub-fetch outcomes entering `collect_venue`'s assembly code:
symbol verification (and OKX endpoint resolution) plus the five independent
data fetches. -/
structure FetchOutcomes where
  verify_ok : Bool := true
  ticker : Option TickerData := none
  orderbook_raw : Option ObRaw := none
  funding : Option FundingData := none
  open_interest : Option OpenInterestData := none
  candles : Option (List Candle) := none
deriving DecidableEq

/-- The snapshot-assembly logic of `collect_venue` (collector.py 540-672):
on verification failure a bare `missing_market` snapshot; otherwise the field
writes of lines 622-660 and the `missing_market` decision of lines 662-668
(`ticker is None and ob_raw is None`). -/
def collect_venue (venue symbol ts : String) (f : FetchOutcomes) : VenueSnapshot :=
  if f.verify_ok = false then
    { venue := venue, symbol := symbol, ts_utc := ts
      missing_market := true
      errors := ["verify_failed"] }
  else
    let candles_present :=
      match f.candles with
      | some cs => decide (cs.isEmpty = false)
      | none => false
    { venue := venue, symbol := symbol, ts_utc := ts
      ticker := f.ticker
      funding := f.funding
      open_interest := f.open_interest
      raw_json :=
        { orderbook_raw := f.orderbook_raw
          ohlcv_candles := if candles_present then f.candles else none }
      missing_market := f.ticker.isNone && f.orderbook_raw.isNone
      errors :=
        (if f.ticker.isNone then ["ticker_failed"] else [])
          ++ (if f.orderbook_raw.isNone then ["orderbook_failed"] else [])
          ++ (if f.ticker.isNone && f.orderbook_raw.isNone
              then ["market_data_unavailable"] else []) }

/-- OKX unit normalization (collector.py 307-329, `_okx_orderbook`): every
level `[price, sz]` quoted in contracts becomes `[price, sz * ct_val]`. -/
def normalize_contract_amounts (ct_val : ℚ) (levels : List (ℚ × ℚ)) : List (ℚ × ℚ) :=
  levels.map fun l => (l.1, l.2 * ct_val)

/-! ## Counter and alert storage (`mon_monitor/storage.py`) -/

/-- The `alert_counters` table keyed by `counter_key`; a missing row reads as
count 0 (`get_consecutive_count`, storage.py 352-359). The `last_ts_utc` /
`updated_at` bookkeeping columns are never read by any logic and are not
modelled. -/
def CounterStore : Type := String → ℕ

/-- `update_consecutive_count(counter_key, count, ts_utc)` (storage.py
361-379): upsert of the count for one key. -/
def setCount (store : CounterStore) (key : String) (v : ℕ) : CounterStore :=
  fun k => if k = key then v else store k

/-- One persisted row of the `alerts` table, as far as `check_dedupe` can see
it: the dedupe key, the snapshot's sampling timestamp `ts_utc`, and the
insertion time `created_at` (seconds; `DEFAULT (datetime('now'))`). -/
structure AlertRow where
  dedupe_key : String
  ts_utc : String
  created_at : ℤ
deriving DecidableEq

/-- `check_dedupe(dedupe_key, window_seconds)` (storage.py 335-350): count the
stored alerts with this key whose `created_at` lies within the trailing
window (`created_at >= datetime('now', '-W seconds')`), and report whether
the count is positive. -/
def check_dedupe (rows : List AlertRow) (now : ℤ) (key : String) (window : ℤ) : Bool :=
  decide (0 < rows.countP fun r => decide (r.dedupe_key = key ∧ now - window ≤ r.created_at))

/-- `save_alert(alert, snapshot_id)` (storage.py 306-333): append one row;
SQLite fills `created_at` with the insertion instant. -/
def save_alert (rows : List AlertRow) (a : Alert) (now : ℤ) : List AlertRow :=
  rows ++ [{ dedupe_key := a.dedupe_key, ts_utc := a.ts_utc, created_at := now }]

/-! ## Detector (`mon_monitor/detector.py`) -/

/-- `CONSECUTIVE_THRESHOLD` (detector.py line 31). -/
def CONSECUTIVE_THRESHOLD : ℕ := 3

/-- `MIN_BASELINE_SAMPLES` (detector.py line 33). -/
def MIN_BASELINE_SAMPLES : ℕ := 20

/-- `statistics.median` on a non-empty list: middle element of the sorted
list for odd length, mean of the two middle elements for even length. -/
def pymedian (l : List ℚ) : ℚ :=
  let s := l.insertionSort (· ≤ ·)
  let n := l.length
  if n % 2 = 1 then s.getD (n / 2) 0
  else (s.getD (n / 2 - 1) 0 + s.getD (n / 2) 0) / 2

/-- `_median(values)` (detector.py 36-41): drop the `None`s, `None` when
nothing remains, else the median. -/
def listMedian (values : List (Option ℚ)) : Option ℚ :=
  let filtered := values.filterMap id
  if filtered.isEmpty then none else some (pymedian filtered)

/-- `_mean(values)` (detector.py 44-49). -/
def listMean (values : List (Option ℚ)) : Option ℚ :=
  let filtered := values.filterMap id
  if filtered.isEmpty then none else some (filtered.sum / (filtered.length : ℚ))

/-- One historical `metrics_snapshot` row, restricted to the columns
`compute_baselines` reads (`storage.get_baseline_data`, storage.py 263-281,
returns non-`missing_market` rows of the trailing window). -/
structure BaselineRow where
  depth_1pct_usdt_bid : Option ℚ := none
  depth_1pct_usdt_ask : Option ℚ := none
  spread_bps : Option ℚ := none
  slip_bps_buy_n2 : Option ℚ := none
  slip_bps_sell_n2 : Option ℚ := none
deriving DecidableEq

/-- `compute_baselines(storage, venue, symbol, baseline_days)` (detector.py
52-109). `rows` stands for `storage.get_baseline_data(venue, baseline_days)`
and `volumes` for `storage.get_recent_volume_data(venue, 7)` (only reached
when `rows` is non-empty, because of the early return). -/
def compute_baselines (rows : List BaselineRow) (volumes : List ℚ)
    (venue symbol ts : String) : BaselineValues :=
  if rows.isEmpty then
    { venue := venue, symbol := symbol, ts_utc := ts, sample_count := 0 }
  else
    let depth_totals := rows.filterMap fun r =>
      match r.depth_1pct_usdt_bid, r.depth_1pct_usdt_ask with
      | some bid, some ask => some (bid + ask)
      | _, _ => none
    let spreads := rows.map (·.spread_bps)
    let slip_n2_values := rows.filterMap fun r =>
      match r.slip_bps_buy_n2, r.slip_bps_sell_n2 with
      | some buy, some sell => some (max buy sell)
      | some buy, none => some buy
      | none, some sell => some sell
      | none, none => none
    { venue := venue, symbol := symbol, ts_utc := ts
      sample_count := rows.length
      warming_up := decide (rows.length < MIN_BASELINE_SAMPLES)
      depth_1pct_total_median := listMedian (depth_totals.map some)
      spread_bps_median := listMedian spreads
      slip_bps_n2_median := listMedian (slip_n2_values.map some)
      volume_24h_mean_7d := listMean (volumes.map some) }

/-- `_check_with_consecutive(storage, counter_key, condition_met, ts_utc)`
(detector.py 112-134): increment on breach, reset on recovery, signal and
reset when the incremented count reaches `CONSECUTIVE_THRESHOLD`. -/
def check_with_consecutive (store : CounterStore) (key : String) (condition_met : Bool) :
    Bool × CounterStore :=
  if condition_met then
    let current := store key
    let new_count := current + 1
    let store1 := setCount store key new_count
    if CONSECUTIVE_THRESHOLD ≤ new_count then (true, setCount store1 key 0)
    else (false, store1)
  else (false, setCount store key 0)

/-- A run of `_check_with_consecutive` evaluations for one key across
consecutive cycles: the per-cycle signals and the final counter state. -/
def runConsecutive (store : CounterStore) (key : String) : List Bool → List Bool × CounterStore
  | [] => ([], store)
  | c :: rest =>
    let fs := check_with_consecutive store key c
    let tail := runConsecutive fs.2 key rest
    (fs.1 :: tail.1, tail.2)

/-- `_get_depth_total(snapshot)` (detector.py 136-144). -/
def get_depth_total (snapshot : VenueSnapshot) : Option ℚ :=
  match snapshot.orderbook with
  | none => none
  | some ob =>
    match ob.depth_1pct_usdt_bid, ob.depth_1pct_usdt_ask with
    | some bid, some ask => some (bid + ask)
    | _, _ => none

/-- `check_depth_shrink(snapshot, baseline, config, storage)` (detector.py
147-192). Returns the optional alert together with the updated counter
store. -/
def check_depth_shrink (snapshot : VenueSnapshot) (baseline : BaselineValues)
    (config : MonitorConfig) (store : CounterStore) : Option Alert × CounterStore :=
  if baseline.warming_up then (none, store)
  else
    match snapshot.orderbook, baseline.depth_1pct_total_median with
    | some _, some med =>
      match get_depth_total snapshot with
      | none => (none, store)
      | some current =>
        let threshold := med * config.thresholds.depth_drop_mult
        let condition := decide (current < threshold)
        let counter_key := "depth_shrink:" ++ snapshot.venue ++ ":" ++ snapshot.symbol
        let fs := check_with_consecutive store counter_key condition
        (if fs.1 then
            some { alert_type := "depth_shrink", venue := snapshot.venue
                   symbol := snapshot.symbol, severity := "warn"
                   threshold_value := some threshold, current_value := some current
                   baseline_value := some med, ts_utc := snapshot.ts_utc
                   dedupe_key := "depth_shrink:" ++ snapshot.venue ++ ":" ++ snapshot.symbol }
          else none, fs.2)
    | _, _ => (none, store)

/-- `check_spread_widen(snapshot, baseline, config, storage)` (detector.py
195-238). -/
def check_spread_widen (snapshot : VenueSnapshot) (baseline : BaselineValues)
    (config : MonitorConfig) (store : CounterStore) : Option Alert × CounterStore :=
  if baseline.warming_up then (none, store)
  else
    match snapshot.orderbook, baseline.spread_bps_median with
    | some ob, some med =>
      match ob.spread_bps with
      | none => (none, store)
      | some current =>
        let threshold := med * config.thresholds.spread_mult
        let condition := decide (threshold < current)
        let counter_key := "spread_widen:" ++ snapshot.venue ++ ":" ++ snapshot.symbol
        let fs := check_with_consecutive store counter_key condition
        (if fs.1 then
            some { alert_type := "spread_widen", venue := snapshot.venue
                   symbol := snapshot.symbol, severity := "warn"
                   threshold_value := some threshold, current_value := some current
                   baseline_value := some med, ts_utc := snapshot.ts_utc
                   dedupe_key := "spread_widen:" ++ snapshot.venue ++ ":" ++ snapshot.symbol }
          else none, fs.2)
    | _, _ => (none, store)

/-- `max` over a non-empty list, as Python's `max(slip_values)`; the `[]`
case is unreachable at its call site. -/
def listMax : List ℚ → ℚ
  | [] => 0
  | x :: xs => xs.foldl max x

/-- `check_impact_cost_up(snapshot, baseline, config, storage)` (detector.py
241-294): slip candidates are `impact_buy_n2.slip_bps` then
`impact_sell_n2.slip_bps`, each kept when present. -/
def check_impact_cost_up (snapshot : VenueSnapshot) (baseline : BaselineValues)
    (config : MonitorConfig) (store : CounterStore) : Option Alert × CounterStore :=
  if baseline.warming_up then (none, store)
  else
    match snapshot.orderbook, baseline.slip_bps_n2_median with
    | some ob, some med =>
      let slip_values := [ob.impact_buy_n2, ob.impact_sell_n2].filterMap
        fun io => io.bind (·.slip_bps)
      if slip_values.isEmpty then (none, store)
      else
        let current := listMax slip_values
        let threshold := med * config.thresholds.slip_mult
        let condition := decide (threshold < current)
        let counter_key := "impact_cost_up:" ++ snapshot.venue ++ ":" ++ snapshot.symbol
        let fs := check_with_consecutive store counter_key condition
        (if fs.1 then
            some { alert_type := "impact_cost_up", venue := snapshot.venue
                   symbol := snapshot.symbol, severity := "warn"
                   threshold_value := some threshold, current_value := some current
                   baseline_value := some med, ts_utc := snapshot.ts_utc
                   dedupe_key := "impact_cost_up:" ++ snapshot.venue ++ ":" ++ snapshot.symbol }
          else none, fs.2)
    | _, _ => (none, store)

/-- The loop body of `check_insufficient_liquidity` over the four labelled
impact results (detector.py 314-347). Hits the first present result flagged
`insufficient_liquidity`; computing its gap percentage is fine, but comparing
it against `config.thresholds.insufficient_liq_gap_pct` performs the failing
attribute access. A below-threshold gap would continue with the remaining
labels. -/
def insufficientLoop (venue symbol ts : String) (config : MonitorConfig) :
    List (Option ImpactCostResult) → Except PyErr (Option Alert)
  | [] => .ok none
  | impact? :: rest =>
    match impact? with
    | none => insufficientLoop venue symbol ts config rest
    | some impact =>
      if impact.insufficient_liquidity then
        let gap_pct :=
          if 0 < impact.target_notional then impact.shortfall / impact.target_notional * 100
          else 0
        match config.thresholds.insufficient_liq_gap_pct with
        | .error e => .error e
        | .ok gap_threshold =>
          if gap_threshold < gap_pct then
            .ok (some { alert_type := "insufficient_liquidity", venue := venue
                        symbol := symbol, severity := "critical"
                        threshold_value := some (impact.target_notional * (1 - gap_threshold / 100))
                        current_value := some impact.filled_notional
                        baseline_value := none, ts_utc := ts
                        dedupe_key := "insufficient_liquidity:" ++ venue ++ ":" ++ symbol })
          else insufficientLoop venue symbol ts config rest
      else insufficientLoop venue symbol ts config rest

/-- `check_insufficient_liquidity(snapshot, config)` (detector.py 297-347);
the candidate order is buy_n2, sell_n2, buy_n1, sell_n1. -/
def check_insufficient_liquidity (snapshot : VenueSnapshot) (config : MonitorConfig) :
    Except PyErr (Option Alert) :=
  match snapshot.orderbook with
  | none => .ok none
  | some ob =>
    insufficientLoop snapshot.venue snapshot.symbol snapshot.ts_utc config
      [ob.impact_buy_n2, ob.impact_sell_n2, ob.impact_buy_n1, ob.impact_sell_n1]

/-- `check_volume_spike(snapshot, baseline, config)` (detector.py 350-398);
the `direction` computation only affects the unmodelled message text. -/
def check_volume_spike (snapshot : VenueSnapshot) (baseline : BaselineValues)
    (config : MonitorConfig) : Option Alert :=
  if baseline.warming_up then none
  else
    match snapshot.ticker, baseline.volume_24h_mean_7d with
    | some t, some mean7 =>
      match t.quote_volume_24h with
      | none => none
      | some volume =>
        let threshold := mean7 * config.thresholds.volume_spike_mult
        if volume ≤ threshold then none
        else
          some { alert_type := "volume_spike", venue := snapshot.venue
                 symbol := snapshot.symbol, severity := "info"
                 threshold_value := some threshold, current_value := some volume
                 baseline_value := some mean7, ts_utc := snapshot.ts_utc
                 dedupe_key := "volume_spike:" ++ snapshot.venue ++ ":" ++ snapshot.symbol }
    | _, _ => none

/-- The dedupe loop of `run_all_checks` (detector.py 424-431): walk the five
evaluator results in order, drop the `None`s, drop any alert whose dedupe key
hits `check_dedupe`, keep the rest in order. -/
def dedupeFilter (candidates : List (Option Alert)) (rows : List AlertRow) (now : ℤ)
    (window : ℤ) : List Alert :=
  match candidates with
  | [] => []
  | none :: rest => dedupeFilter rest rows now window
  | some a :: rest =>
    if check_dedupe rows now a.dedupe_key window then dedupeFilter rest rows now window
    else a :: dedupeFilter rest rows now window

/-- `run_all_checks(snapshot, baseline, config, storage)` (detector.py
401-432), threading the counter store through the three consecutive-rule
evaluators and propagating the exception of the insufficient-liquidity
check. -/
def run_all_checks (snapshot : VenueSnapshot) (baseline : BaselineValues)
    (config : MonitorConfig) (store : CounterStore) (rows : List AlertRow) (now : ℤ) :
    Except PyErr (List Alert × CounterStore) :=
  if snapshot.missing_market then .ok ([], store)
  else
    let r1 := check_depth_shrink snapshot baseline config store
    let r2 := check_spread_widen snapshot baseline config r1.2
    let r3 := check_impact_cost_up snapshot baseline config r2.2
    match check_insufficient_liquidity snapshot config with
    | .error e => .error e
    | .ok a4 =>
      let a5 := check_volume_spike snapshot baseline config
      .ok (dedupeFilter [r1.1, r2.1, r3.1, a4, a5] rows now config.dedupe_window_seconds, r3.2)

/-- The snapshot of `tests/test_detector.py::TestInsufficientLiquidity::
test_immediate_trigger`: `impact_buy_n2` flagged insufficient with shortfall
30000 out of a 100000 target (a 30% gap), `impact_sell_n2` fully filled. -/
def insufficientSnapshot : VenueSnapshot :=
  { venue := "binance"
    symbol := "MON/USDT:USDT"
    ts_utc := "2025-01-01T00:00:00+00:00"
    ticker := some { last_price := some 100, quote_volume_24h := some 1000000
                     pct_change_24h := some 5 }
    orderbook := some
      { best_bid := some (999/10), best_ask := some (1001/10), mid := some 100
        spread_bps := some 5
        depth_1pct_usdt_bid := some 50000, depth_1pct_usdt_ask := some 50000
        impact_buy_n2 := some
          { avg_fill_price := some 100, slip_bps := some 10
            filled_notional := 70000, target_notional := 100000
            insufficient_liquidity := true, shortfall := 30000 }
        impact_sell_n2 := some
          { avg_fill_price := some 99, slip_bps := some 12
            filled_notional := 100000, target_notional := 100000 } } }

/-! ## Supporting lemmas -/

/-- The remaining target never goes negative while walking the book: a level
is consumed fully only when its notional fits in the remainder, and a partial
fill zeroes the remainder. -/
theorem impactWalk_remaining_nonneg (levels : List (ℚ × ℚ)) (r c b : ℚ) (h : 0 ≤ r) :
    0 ≤ (impactWalk levels r c b).1 := by
  induction levels generalizing r c b with
  | nil => simpa [impactWalk] using h
  | cons l rest ih =>
    obtain ⟨price, amount⟩ := l
    rw [impactWalk]
    split
    · exact h
    · dsimp only
      split
      · exact ih _ _ _ (by linarith)
      · simp

/-! ## Claims -/

/-- C1: for every order-book side, mid price, side string and target notional
`notional ≥ 0`, the `ImpactCostResult` of `calc_impact_cost` satisfies
`filled_notional + shortfall = notional`, and `insufficient_liquidity` is
true iff `shortfall > 0`. -/
theorem impact_cost_conservation (levels : List (ℚ × ℚ)) (mid : ℚ) (side : String)
    (notional : ℚ) (h : 0 ≤ notional) :
    (calc_impact_cost levels mid notional side).filled_notional
        + (calc_impact_cost levels mid notional side).shortfall = notional
    ∧ ((calc_impact_cost levels mid notional side).insufficient_liquidity = true
        ↔ 0 < (calc_impact_cost levels mid notional side).shortfall) := by
  have hr : 0 ≤ (impactWalk levels notional 0 0).1 :=
    impactWalk_remaining_nonneg levels notional 0 0 h
  simp only [calc_impact_cost]
  by_cases hpos : 0 < (impactWalk levels notional 0 0).1
  · simp [hpos]
  · have hzero : (impactWalk levels notional 0 0).1 = 0 := le_antisymm (not_lt.mp hpos) hr
    simp [hpos, hzero]

/-- C1 witness: the asks `[[100,1],[101,1]]` with target 1000 (the spec's own
shortfall example) satisfy the conservation invariant. -/
theorem impact_cost_conservation_witness :
    (calc_impact_cost [(100, 1), (101, 1)] 100 1000 "buy").filled_notional
        + (calc_impact_cost [(100, 1), (101, 1)] 100 1000 "buy").shortfall = 1000
    ∧ ((calc_impact_cost [(100, 1), (101, 1)] 100 1000 "buy").insufficient_liquidity = true
        ↔ 0 < (calc_impact_cost [(100, 1), (101, 1)] 100 1000 "buy").shortfall) :=
  impact_cost_conservation [(100, 1), (101, 1)] 100 "buy" 1000 (by norm_num)

/-- C2 counterexample: on asks `[[100,50],[100.5,50],[101,50]]` with mid 100
and buy target 2050, the first level's notional (5000) already covers the
whole target, so the average fill price is exactly 100 and the slippage is
exactly 0 — the claimed strict inequalities fail. -/
theorem impact_cost_2050_counterexample :
    ¬ ((calc_impact_cost [(100, 50), (201/2, 50), (101, 50)] 100 2050 "buy").filled_notional
          = 2050
      ∧ (∃ v, (calc_impact_cost [(100, 50), (201/2, 50), (101, 50)] 100 2050
            "buy").avg_fill_price = some v ∧ 100 < v)
      ∧ (∃ s, (calc_impact_cost [(100, 50), (201/2, 50), (101, 50)] 100 2050
            "buy").slip_bps = some s ∧ 0 < s)) := by
  intro hclaim
  obtain ⟨-, ⟨v, hv, hlt⟩, -⟩ := hclaim
  have havg : (calc_impact_cost [(100, 50), (201/2, 50), (101, 50)] 100 2050
      "buy").avg_fill_price = some 100 := by norm_num [calc_impact_cost, impactWalk]
  rw [havg] at hv
  have : v = 100 := (Option.some_injective ℚ hv).symm
  rw [this] at hlt
  exact lt_irrefl 100 hlt

/-- C2 amended: on those asks with mid 100 and buy target 2050 the result has
`filled_notional = 2050`, `avg_fill_price = 100`, `slip_bps = 0` and no
insufficient-liquidity flag (the first level alone absorbs the target). -/
theorem impact_cost_2050_amended :
    (calc_impact_cost [(100, 50), (201/2, 50), (101, 50)] 100 2050 "buy").filled_notional = 2050
    ∧ (calc_impact_cost [(100, 50), (201/2, 50), (101, 50)] 100 2050 "buy").avg_fill_price
        = some 100
    ∧ (calc_impact_cost [(100, 50), (201/2, 50), (101, 50)] 100 2050 "buy").slip_bps = some 0
    ∧ (calc_impact_cost [(100, 50), (201/2, 50), (101, 50)] 100 2050
        "buy").insufficient_liquidity = false := by
  norm_num [calc_impact_cost, impactWalk]

/-- Reading a counter right after writing it returns the written value. -/
theorem setCount_self (s : CounterStore) (k : String) (v : ℕ) : setCount s k v k = v := by
  simp [setCount]

/-- `check_dedupe` answers exactly whether some stored row with the same key
has its insertion time inside the trailing window. -/
theorem check_dedupe_iff (rows : List AlertRow) (now : ℤ) (key : String) (window : ℤ) :
    check_dedupe rows now key window = true ↔
      ∃ r ∈ rows, r.dedupe_key = key ∧ now - window ≤ r.created_at := by
  simp [check_dedupe, List.countP_pos_iff]

/-- Membership in the dedupe loop's output: a candidate survives iff it was
offered and its key is not a recent duplicate. -/
theorem mem_dedupeFilter (candidates : List (Option Alert)) (rows : List AlertRow)
    (now window : ℤ) (a : Alert) :
    a ∈ dedupeFilter candidates rows now window ↔
      some a ∈ candidates ∧ check_dedupe rows now a.dedupe_key window = false := by
  induction candidates with
  | nil => simp [dedupeFilter]
  | cons c rest ih =>
    cases c with
    | none => simpa [dedupeFilter] using ih
    | some b =>
      by_cases hb : check_dedupe rows now b.dedupe_key window = true
      · rw [dedupeFilter, if_pos hb, ih]
        constructor
        · rintro ⟨hmem, hfalse⟩
          exact ⟨List.mem_cons_of_mem _ hmem, hfalse⟩
        · rintro ⟨hmem, hfalse⟩
          rcases List.mem_cons.mp hmem with heq | hmem'
          · obtain rfl : a = b := Option.some_injective _ heq
            rw [hb] at hfalse
            cases hfalse
          · exact ⟨hmem', hfalse⟩
      · rw [dedupeFilter, if_neg hb]
        have hbf : check_dedupe rows now b.dedupe_key window = false :=
          Bool.not_eq_true _ ▸ Bool.of_not_eq_true hb
        constructor
        · intro hmem
          rcases List.mem_cons.mp hmem with rfl | hmem'
          · exact ⟨List.mem_cons_self _ _, hbf⟩
          · obtain ⟨hm, hf⟩ := ih.mp hmem'
            exact ⟨List.mem_cons_of_mem _ hm, hf⟩
        · rintro ⟨hmem, hfalse⟩
          rcases List.mem_cons.mp hmem with heq | hmem'
          · obtain rfl : a = b := Option.some_injective _ heq
            exact List.mem_cons_self _ _
          · exact List.mem_cons_of_mem _ (ih.mpr ⟨hmem', hfalse⟩)

/-- `check_dedupe` reads only each row's key and `created_at`: rows that
agree on those (whatever their sampling timestamps `ts_utc`) dedupe alike. -/
theorem check_dedupe_eq_of_strip_eq (rows rows' : List AlertRow) (now : ℤ) (key : String)
    (window : ℤ)
    (h : rows.map (fun r => (r.dedupe_key, r.created_at))
        = rows'.map (fun r => (r.dedupe_key, r.created_at))) :
    check_dedupe rows now key window = check_dedupe rows' now key window := by
  have hcount : ∀ l : List AlertRow,
      l.countP (fun r => decide (r.dedupe_key = key ∧ now - window ≤ r.created_at))
        = (l.map fun r => (r.dedupe_key, r.created_at)).countP
            (fun pr => decide (pr.1 = key ∧ now - window ≤ pr.2)) := by
    intro l
    rw [List.countP_map]
    rfl
  unfold check_dedupe
  rw [hcount rows, hcount rows', h]

/-- C3: the claim says no rule evaluator raises; on a snapshot whose order
book carries an impact result with `insufficient_liquidity` set,
`check_insufficient_liquidity` evaluates the attribute access
`config.thresholds.insufficient_liq_gap_pct` on a `ThresholdsConfig`, which
declares no such field — the evaluator raises `AttributeError` (the repo's
own test `test_immediate_trigger` expects an alert here instead). -/
theorem insufficient_liquidity_check_raises :
    check_insufficient_liquidity insufficientSnapshot {} = .error .attributeError := by
  rfl

/-- C4: starting from a zero counter, two consecutive breaches never signal;
a third consecutive breach signals exactly once and leaves the counter at 0,
so three further consecutive breaches are needed before the next signal; a
non-breach cycle always resets the counter to 0. -/
theorem consecutive_confirmation_behavior (store : CounterStore) (key : String)
    (h : store key = 0) :
    (runConsecutive store key [true, true]).1 = [false, false]
    ∧ (runConsecutive store key [true, true, true]).1 = [false, false, true]
    ∧ (runConsecutive store key [true, true, true]).2 key = 0
    ∧ (runConsecutive store key [true, true, true, true, true]).1
        = [false, false, true, false, false]
    ∧ (runConsecutive store key [true, true, true, true, true, true]).1
        = [false, false, true, false, false, true]
    ∧ ∀ s : CounterStore, (check_with_consecutive s key false).1 = false
        ∧ (check_with_consecutive s key false).2 key = 0 := by
  refine ⟨?_, ?_, ?_, ?_, ?_, ?_⟩
  · simp [runConsecutive, check_with_consecutive, CONSECUTIVE_THRESHOLD, setCount, h]
  · simp [runConsecutive, check_with_consecutive, CONSECUTIVE_THRESHOLD, setCount, h]
  · simp [runConsecutive, check_with_consecutive, CONSECUTIVE_THRESHOLD, setCount, h]
  · simp [runConsecutive, check_with_consecutive, CONSECUTIVE_THRESHOLD, setCount, h]
  · simp [runConsecutive, check_with_consecutive, CONSECUTIVE_THRESHOLD, setCount, h]
  · intro s
    constructor
    · simp [check_with_consecutive]
    · simp [check_with_consecutive, setCount]

/-- C4 witness: from a fresh (all-zero) counter store, the third consecutive
breach for one key signals. -/
theorem consecutive_confirmation_behavior_witness :
    (runConsecutive (fun _ => 0) "depth_shrink:binance:MON/USDT:USDT"
        [true, true, true]).1 = [false, false, true] :=
  (consecutive_confirmation_behavior (fun _ => 0) "depth_shrink:binance:MON/USDT:USDT"
    rfl).2.1

/-- C10: from a stored count in `{0, 1, 2}`, one consecutive-confirmation
evaluation (breach or not) leaves the stored count in `{0, 1, 2}` again — the
persisted counter never remains at or above the threshold 3. -/
theorem consecutive_counter_bounded (store : CounterStore) (key : String) (cond : Bool)
    (h : store key = 0 ∨ store key = 1 ∨ store key = 2) :
    ((check_with_consecutive store key cond).2 key = 0
      ∨ (check_with_consecutive store key cond).2 key = 1
      ∨ (check_with_consecutive store key cond).2 key = 2)
    ∧ (check_with_consecutive store key cond).2 key < 3 := by
  cases cond with
  | false => simp [check_with_consecutive, setCount]
  | true =>
    rcases h with h | h | h <;>
      simp [check_with_consecutive, CONSECUTIVE_THRESHOLD, setCount, h]

/-- C10 witness: a first breach on a fresh counter stores 1. -/
theorem consecutive_counter_bounded_witness :
    ((check_with_consecutive (fun _ => 0) "spread_widen:okx:MON-USDT-SWAP" true).2
        "spread_widen:okx:MON-USDT-SWAP" = 0
      ∨ (check_with_consecutive (fun _ => 0) "spread_widen:okx:MON-USDT-SWAP" true).2
        "spread_widen:okx:MON-USDT-SWAP" = 1
      ∨ (check_with_consecutive (fun _ => 0) "spread_widen:okx:MON-USDT-SWAP" true).2
        "spread_widen:okx:MON-USDT-SWAP" = 2)
    ∧ (check_with_consecutive (fun _ => 0) "spread_widen:okx:MON-USDT-SWAP" true).2
        "spread_widen:okx:MON-USDT-SWAP" < 3 :=
  consecutive_counter_bounded (fun _ => 0) "spread_widen:okx:MON-USDT-SWAP" true (Or.inl rfl)

/-- C5: a candidate alert survives `run_all_checks`'s dedupe loop iff no
same-key alert row was inserted (by `created_at`, not `ts_utc`) within the
window; hence across two cycles, a same-key alert saved at `t1` suppresses
the second candidate at `t2` when `t2 - t1 ≤ window` and lets it through
when `t2 - t1 > window`; and `check_dedupe` is blind to `ts_utc`. -/
theorem dedupe_window_behavior (candidates : List (Option Alert)) (rows : List AlertRow)
    (now window : ℤ) (a a1 a2 : Alert) (t1 t2 : ℤ)
    (hkey : a1.dedupe_key = a2.dedupe_key)
    (h1 : check_dedupe rows t1 a1.dedupe_key window = false) :
    (a ∈ dedupeFilter candidates rows now window ↔
      some a ∈ candidates ∧ check_dedupe rows now a.dedupe_key window = false)
    ∧ dedupeFilter [some a1] rows t1 window = [a1]
    ∧ (t2 - t1 ≤ window →
        dedupeFilter [some a2] (save_alert rows a1 t1) t2 window = [])
    ∧ (window < t2 - t1 → check_dedupe rows t2 a2.dedupe_key window = false →
        dedupeFilter [some a2] (save_alert rows a1 t1) t2 window = [a2])
    ∧ ∀ rows' : List AlertRow,
        rows.map (fun r => (r.dedupe_key, r.created_at))
          = rows'.map (fun r => (r.dedupe_key, r.created_at)) →
        check_dedupe rows now a.dedupe_key window
          = check_dedupe rows' now a.dedupe_key window := by
  refine ⟨mem_dedupeFilter candidates rows now window a, ?_, ?_, ?_, ?_⟩
  · simp [dedupeFilter, h1]
  · intro hwin
    have hdup : check_dedupe (save_alert rows a1 t1) t2 a2.dedupe_key window = true := by
      rw [check_dedupe_iff]
      refine ⟨{ dedupe_key := a1.dedupe_key, ts_utc := a1.ts_utc, created_at := t1 }, ?_,
        hkey, show t2 - window ≤ t1 by omega⟩
      simp [save_alert]
    simp [dedupeFilter, hdup]
  · intro hout h2
    have hnot : check_dedupe (save_alert rows a1 t1) t2 a2.dedupe_key window = false := by
      cases hc : check_dedupe (save_alert rows a1 t1) t2 a2.dedupe_key window with
      | false => rfl
      | true =>
        exfalso
        rw [check_dedupe_iff] at hc
        obtain ⟨r, hr, hk, ht⟩ := hc
        have hcases : r ∈ rows
            ∨ r = { dedupe_key := a1.dedupe_key, ts_utc := a1.ts_utc, created_at := t1 } := by
          simpa [save_alert] using hr
        rcases hcases with hr0 | hr1
        · have : check_dedupe rows t2 a2.dedupe_key window = true :=
            (check_dedupe_iff rows t2 a2.dedupe_key window).mpr ⟨r, hr0, hk, ht⟩
          rw [h2] at this
          cases this
        · rw [hr1] at ht
          have ht' : t2 - window ≤ t1 := ht
          omega
    simp [dedupeFilter, hnot]
  · intro rows' hstrip
    exact check_dedupe_eq_of_strip_eq rows rows' now a.dedupe_key window hstrip

/-- C5 witness: with an empty alert table, a first alert for one key passes
the dedupe loop; after it is saved at time 0, a same-key candidate at time 10
is suppressed by the 3600-second window. -/
theorem dedupe_window_behavior_witness :
    dedupeFilter [some ({ dedupe_key := "volume_spike:binance:MON/USDT:USDT" } : Alert)]
        [] 0 3600 = [({ dedupe_key := "volume_spike:binance:MON/USDT:USDT" } : Alert)]
    ∧ dedupeFilter [some ({ dedupe_key := "volume_spike:binance:MON/USDT:USDT" } : Alert)]
        (save_alert [] ({ dedupe_key := "volume_spike:binance:MON/USDT:USDT" } : Alert) 0)
        10 3600 = [] :=
  ⟨(dedupe_window_behavior [] [] 0 3600 {} { dedupe_key := "volume_spike:binance:MON/USDT:USDT" }
      { dedupe_key := "volume_spike:binance:MON/USDT:USDT" } 0 10 rfl rfl).2.1,
   (dedupe_window_behavior [] [] 0 3600 {} { dedupe_key := "volume_spike:binance:MON/USDT:USDT" }
      { dedupe_key := "volume_spike:binance:MON/USDT:USDT" } 0 10 rfl rfl).2.2.1 (by omega)⟩

/-- C6: the baseline's `warming_up` flag is true exactly when fewer than 20
historical rows exist; and while a baseline is warming up, the depth-shrink,
spread-widen, impact-cost-up and volume-spike evaluators emit no alert. -/
theorem warming_up_gates_rules (rows : List BaselineRow) (volumes : List ℚ)
    (venue symbol ts : String) (snapshot : VenueSnapshot) (baseline : BaselineValues)
    (config : MonitorConfig) (store : CounterStore)
    (h : baseline.warming_up = true) :
    ((compute_baselines rows volumes venue symbol ts).warming_up = true ↔ rows.length < 20)
    ∧ (check_depth_shrink snapshot baseline config store).1 = none
    ∧ (check_spread_widen snapshot baseline config store).1 = none
    ∧ (check_impact_cost_up snapshot baseline config store).1 = none
    ∧ check_volume_spike snapshot baseline config = none := by
  refine ⟨?_, ?_, ?_, ?_, ?_⟩
  · by_cases he : rows.isEmpty
    · rw [List.isEmpty_iff] at he
      subst he
      simp [compute_baselines]
    · have : ¬ rows.isEmpty = true := he
      simp [compute_baselines, this, MIN_BASELINE_SAMPLES]
  · simp [check_depth_shrink, h]
  · simp [check_spread_widen, h]
  · simp [check_impact_cost_up, h]
  · simp [check_volume_spike, h]

/-- C6 witness: no history at all means warming up, and a warming-up baseline
(the default) silences the four baseline-comparison rules. -/
theorem warming_up_gates_rules_witness :
    ((compute_baselines [] [] "binance" "MON/USDT:USDT" "t").warming_up = true
      ↔ ([] : List BaselineRow).length < 20)
    ∧ (check_depth_shrink {} {} {} (fun _ => 0)).1 = none
    ∧ (check_spread_widen {} {} {} (fun _ => 0)).1 = none
    ∧ (check_impact_cost_up {} {} {} (fun _ => 0)).1 = none
    ∧ check_volume_spike {} {} {} = none :=
  warming_up_gates_rules [] [] "binance" "MON/USDT:USDT" "t" {} {} {} (fun _ => 0) rfl

/-- The trailing window `closes[-25:] if len(closes) >= 25 else closes` is
`drop (length - 25)` in both cases. -/
theorem realizedWindow_eq (closes : List ℚ) :
    (if 25 ≤ closes.length then closes.drop (closes.length - 25) else closes)
      = closes.drop (closes.length - 25) := by
  by_cases h : 25 ≤ closes.length
  · simp [h]
  · simp [h, Nat.sub_eq_zero_of_le (le_of_not_le h)]

/-- At most one log return per adjacent pair of window closes. -/
theorem logReturns_length_le (lg : ℚ → ℚ) (recent : List ℚ) :
    (logReturns lg recent).length ≤ recent.length - 1 := by
  calc (logReturns lg recent).length
      ≤ (recent.zip recent.tail).length := List.length_filterMap_le _ _
    _ = min recent.length recent.tail.length := List.length_zip _ _
    _ ≤ recent.length - 1 := by
        rw [List.length_tail]
        omega

/-- Unfolding one step of the log-return extraction. -/
theorem logReturns_cons_cons (lg : ℚ → ℚ) (x y : ℚ) (rest : List ℚ) :
    logReturns lg (x :: y :: rest)
      = (if 0 < x ∧ 0 < y then [lg (y / x)] else []) ++ logReturns lg (y :: rest) := by
  by_cases hxy : 0 < x ∧ 0 < y
  · simp [logReturns, List.filterMap_cons, hxy]
  · simp [logReturns, List.filterMap_cons, hxy]

/-- Constant positive closes produce only unit-ratio returns. -/
theorem logReturns_replicate (lg : ℚ → ℚ) (c : ℚ) (hc : 0 < c) (n : ℕ) :
    logReturns lg (List.replicate (n + 1) c) = List.replicate n (lg 1) := by
  induction n with
  | zero => simp [logReturns]
  | succ k ih =>
    have hsplit : List.replicate (k + 1 + 1) c = c :: c :: List.replicate k c := by
      simp [List.replicate_succ]
    have hjoin : c :: List.replicate k c = List.replicate (k + 1) c := by
      simp [List.replicate_succ]
    rw [hsplit, logReturns_cons_cons, hjoin, ih, if_pos ⟨hc, hc⟩, div_self (ne_of_gt hc)]
    simp [List.replicate_succ]

/-- The Bessel-corrected sample variance of an all-zero return list is 0. -/
theorem sampleVarianceBessel_replicate_zero (n : ℕ) :
    sampleVarianceBessel (List.replicate n (0 : ℚ)) = 0 := by
  simp [sampleVarianceBessel, List.sum_replicate, List.map_replicate]

/-- `calc_realized_vol` with the window rewritten to its closed `drop`
form. -/
theorem calc_realized_vol_eq (lg sq : ℚ → ℚ) (closes : List ℚ) :
    calc_realized_vol lg sq closes
      = if closes.length < 2 then none
        else if (logReturns lg (closes.drop (closes.length - 25))).length < 2 then none
        else some (sq (sampleVarianceBessel
            (logReturns lg (closes.drop (closes.length - 25))))) := by
  unfold calc_realized_vol
  rw [realizedWindow_eq]

/-- C7: `calc_realized_vol` is absent on fewer than 2 closes and on fewer
than 2 valid log returns; otherwise it is `sqrt` of the Bessel-corrected
sample variance of the log returns over the trailing window of at most the
last 25 closes (at most 24 returns); on 30 identical positive closes it
returns 0 (`lg` and `sq` stand for `math.log` and `math.sqrt`, with their
defining facts `lg 1 = 0` and `sq 0 = 0` as hypotheses). -/
theorem realized_vol_spec (lg sq : ℚ → ℚ) (closes : List ℚ) (c : ℚ)
    (hc : 0 < c) (hlg : lg 1 = 0) (hsq : sq 0 = 0) :
    (closes.length < 2 → calc_realized_vol lg sq closes = none)
    ∧ ((logReturns lg (closes.drop (closes.length - 25))).length < 2 →
        calc_realized_vol lg sq closes = none)
    ∧ (2 ≤ (logReturns lg (closes.drop (closes.length - 25))).length →
        calc_realized_vol lg sq closes
          = some (sq (sampleVarianceBessel
              (logReturns lg (closes.drop (closes.length - 25))))))
    ∧ (closes.drop (closes.length - 25)).length ≤ 25
    ∧ (logReturns lg (closes.drop (closes.length - 25))).length ≤ 24
    ∧ calc_realized_vol lg sq (List.replicate 30 c) = some 0 := by
  have hdl : (closes.drop (closes.length - 25)).length
      = closes.length - (closes.length - 25) := List.length_drop _ _
  have hbound : (logReturns lg (closes.drop (closes.length - 25))).length
      ≤ (closes.drop (closes.length - 25)).length - 1 := logReturns_length_le _ _
  refine ⟨?_, ?_, ?_, ?_, ?_, ?_⟩
  · intro h
    rw [calc_realized_vol_eq, if_pos h]
  · intro h
    rw [calc_realized_vol_eq]
    by_cases hlen : closes.length < 2
    · rw [if_pos hlen]
    · rw [if_neg hlen, if_pos h]
  · intro h
    rw [calc_realized_vol_eq]
    have hlen : ¬ closes.length < 2 := by omega
    rw [if_neg hlen, if_neg (Nat.not_lt.mpr h)]
  · omega
  · omega
  · have hrep : logReturns lg (List.replicate 25 c) = List.replicate 24 (lg 1) :=
      logReturns_replicate lg c hc 24
    have e1 : (List.replicate 30 c).length = 30 := List.length_replicate _ _
    rw [calc_realized_vol_eq, e1]
    have e2 : (List.replicate 30 c).drop (30 - 25) = List.replicate 25 c := by
      norm_num [List.drop_replicate]
    rw [e2, hrep, hlg]
    rw [if_neg (by norm_num : ¬ (30 : ℕ) < 2),
      if_neg (by simp : ¬ (List.replicate 24 (0 : ℚ)).length < 2),
      sampleVarianceBessel_replicate_zero 24, hsq]

/-- C7 witness: 30 identical closes give zero volatility; an empty close list
gives no volatility. -/
theorem realized_vol_spec_witness :
    calc_realized_vol (fun _ => 0) (fun _ => 0) (List.replicate 30 1) = some 0
    ∧ calc_realized_vol (fun _ => 0) (fun _ => 0) [] = none :=
  ⟨(realized_vol_spec (fun _ => 0) (fun _ => 0) (List.replicate 30 1) 1 one_pos rfl
      rfl).2.2.2.2.2,
   (realized_vol_spec (fun _ => 0) (fun _ => 0) [] 1 one_pos rfl rfl).1 (by decide)⟩

/-- `enrich_snapshot` returns a `missing_market` snapshot untouched
(calculator.py 279-280). -/
theorem enrich_snapshot_of_missing (lg sq : ℚ → ℚ) (s : VenueSnapshot)
    (config : MonitorConfig) (h : s.missing_market = true) :
    enrich_snapshot lg sq s config = s := by
  simp [enrich_snapshot, h]

/-- Enrichment never changes the `missing_market` flag: every branch only
updates derived fields. -/
theorem enrich_missing_market (lg sq : ℚ → ℚ) (s : VenueSnapshot) (config : MonitorConfig) :
    (enrich_snapshot lg sq s config).missing_market = s.missing_market := by
  cases hms : s.missing_market with
  | true =>
    rw [enrich_snapshot_of_missing lg sq s config hms]
    exact hms
  | false =>
    obtain ⟨v, sy, ts, mm, tk, ob, fu, oi, oh, ⟨obr, cand⟩, er⟩ := s
    have hmm : mm = false := hms
    subst hmm
    unfold enrich_snapshot
    rw [if_neg (by simp)]
    cases obr <;> cases cand <;> dsimp only <;> (repeat' split) <;> rfl

/-- `collect_venue` never populates the derived-metric fields; they are
filled only by enrichment. -/
theorem collect_venue_derived_none (venue symbol ts : String) (f : FetchOutcomes) :
    (collect_venue venue symbol ts f).orderbook = none
    ∧ (collect_venue venue symbol ts f).ohlcv = none := by
  unfold collect_venue
  split <;> exact ⟨rfl, rfl⟩

/-- C8: in the collect-then-enrich pipeline, a `missing_market` snapshot has
no orderbook metrics and no ohlcv metrics; a snapshot whose ticker or order
book was obtained is never `missing_market`; for a verified venue the
collector marks `missing_market` exactly when both ticker and order book are
absent; and enrichment preserves the flag. -/
theorem missing_market_pipeline_invariant (f : FetchOutcomes) (config : MonitorConfig)
    (lg sq : ℚ → ℚ) (venue symbol ts : String) :
    ((enrich_snapshot lg sq (collect_venue venue symbol ts f) config).missing_market = true →
        (enrich_snapshot lg sq (collect_venue venue symbol ts f) config).orderbook = none
        ∧ (enrich_snapshot lg sq (collect_venue venue symbol ts f) config).ohlcv = none)
    ∧ ((collect_venue venue symbol ts f).ticker.isSome = true
          ∨ (collect_venue venue symbol ts f).raw_json.orderbook_raw.isSome = true →
        (collect_venue venue symbol ts f).missing_market = false)
    ∧ (f.verify_ok = true →
        ((collect_venue venue symbol ts f).missing_market = true
          ↔ f.ticker = none ∧ f.orderbook_raw = none))
    ∧ (enrich_snapshot lg sq (collect_venue venue symbol ts f) config).missing_market
        = (collect_venue venue symbol ts f).missing_market := by
  have hpres := enrich_missing_market lg sq (collect_venue venue symbol ts f) config
  refine ⟨?_, ?_, ?_, hpres⟩
  · intro h
    rw [hpres] at h
    rw [enrich_snapshot_of_missing lg sq _ config h]
    exact collect_venue_derived_none venue symbol ts f
  · intro h
    cases hv : f.verify_ok with
    | false =>
      exfalso
      rcases h with h | h <;> simp [collect_venue, hv] at h
    | true =>
      rcases h with h | h <;>
        simp_all [collect_venue, Option.isSome_iff_ne_none]
  · intro hv
    simp [collect_venue, hv, Option.isNone_iff_eq_none]

/-- C8 witness: a venue whose symbol verification failed yields a
`missing_market` pipeline snapshot with no derived metrics. -/
theorem missing_market_pipeline_invariant_witness :
    (enrich_snapshot id id (collect_venue "okx" "MON-USDT-SWAP" "t"
        { verify_ok := false }) {}).orderbook = none
    ∧ (enrich_snapshot id id (collect_venue "okx" "MON-USDT-SWAP" "t"
        { verify_ok := false }) {}).ohlcv = none :=
  (missing_market_pipeline_invariant { verify_ok := false } {} id id
    "okx" "MON-USDT-SWAP" "t").1 rfl

/-- Scaling every level's amount by `m` scales the within-band notional sum
by `m`. -/
theorem sumWithin_normalize (keep : ℚ → Bool) (m : ℚ) (levels : List (ℚ × ℚ)) :
    sumWithin keep (normalize_contract_amounts m levels) = m * sumWithin keep levels := by
  induction levels with
  | nil => simp [sumWithin, normalize_contract_amounts]
  | cons l rest ih =>
    simp only [normalize_contract_amounts, List.map_cons, sumWithin] at ih ⊢
    rw [ih, mul_add]
    congr 1
    by_cases hk : keep l.1
    · simp [hk]
      ring
    · simp [hk]

/-- Pointwise correspondence (same prices, amounts scaled by `m`) means the
normalized contract book IS the base book. -/
theorem normalize_eq_of_forall₂ (m : ℚ) (contract base : List (ℚ × ℚ))
    (h : List.Forall₂ (fun cl bl => bl.1 = cl.1 ∧ bl.2 = cl.2 * m) contract base) :
    normalize_contract_amounts m contract = base := by
  induction h with
  | nil => rfl
  | cons hd tl ih =>
    simp only [normalize_contract_amounts, List.map_cons] at ih ⊢
    rw [ih]
    congr 1
    obtain ⟨h1, h2⟩ := hd
    exact Prod.ext h1.symm h2.symm

/-- C9: a contract-quoted book whose per-level amounts, multiplied by `m`
during normalization, equal a base-quoted book's amounts at the same prices
yields exactly the base book's `calc_depth_within_pct`; and depth is a
homomorphism under the per-level amount scaling applied by normalization. -/
theorem depth_normalization_homomorphism (m : ℚ) (contract base : List (ℚ × ℚ))
    (mid pct : ℚ) (side : String) (_hm : 0 < m)
    (h : List.Forall₂ (fun cl bl => bl.1 = cl.1 ∧ bl.2 = cl.2 * m) contract base) :
    calc_depth_within_pct (normalize_contract_amounts m contract) mid pct side
      = calc_depth_within_pct base mid pct side
    ∧ ∀ ls : List (ℚ × ℚ),
        calc_depth_within_pct (normalize_contract_amounts m ls) mid pct side
          = m * calc_depth_within_pct ls mid pct side := by
  constructor
  · rw [normalize_eq_of_forall₂ m contract base h]
  · intro ls
    unfold calc_depth_within_pct
    by_cases hbid : side = "bid"
    · simp [hbid, sumWithin_normalize]
    · by_cases hask : side = "ask"
      · simp [hbid, hask, sumWithin_normalize]
      · simp [hbid, hask]

/-- C9 witness: an OKX-style contract book `[[100, 5]]` with contract value
10 normalizes to the base book `[[100, 50]]` and reports the same 1% bid
depth. -/
theorem depth_normalization_homomorphism_witness :
    calc_depth_within_pct (normalize_contract_amounts 10 [(100, 5)]) 100 1 "bid"
      = calc_depth_within_pct [(100, 50)] 100 1 "bid" :=
  (depth_normalization_homomorphism 10 [(100, 5)] [(100, 50)] 100 1 "bid" (by norm_num)
    (List.Forall₂.cons ⟨rfl, by norm_num⟩ List.Forall₂.nil)).1

end MonMonitor
